import Mathlib

/-!
# Verification of the quantum execution bridge

Shallow embedding of `src/runtimes/quantum/quantum_bridge.py` (class
`QuantumBridge` and its helpers).  Python dictionaries are modelled as
insertion-ordered association lists with string keys; external effects
(the qiskit/cirq libraries, vendor HTTP endpoints, the clock) are
modelled as explicit oracle parameters, so every adapter is a total
function of its oracle.  Machine floats occurring in the original
(`time.time()`, rotation angles) are modelled as `Int` timestamps and
rational angles; no property below depends on float rounding.
-/

/-- The value shapes that occur in the bridge's result and receipt
dictionaries: strings, integers, booleans, and flat dictionaries from
measured bitstring to occurrence count (`counts`, and the default `{}`
results blob). -/
inductive RVal where
  | jstr (s : String)
  | jint (n : Int)
  | jbool (b : Bool)
  | jdict (entries : List (String × Int))
deriving DecidableEq

/-- A Python dict with string keys: insertion-ordered association list,
keys unique in every dict the bridge builds; lookup takes the first
binding. -/
abbrev PyDict := List (String × RVal)

/-- `d.get(k)`: the first value bound to `k`, if any. -/
def dictGet : PyDict → String → Option RVal
  | [], _ => none
  | (k, v) :: rest, key => if k = key then some v else dictGet rest key

/-- `d[k] = v`: replace the binding in place if the key exists (Python
dicts keep the original insertion position), otherwise append. -/
def dictSet : PyDict → String → RVal → PyDict
  | [], key, v => [(key, v)]
  | (k, w) :: rest, key, v =>
    if k = key then (k, v) :: rest else (k, w) :: dictSet rest key v

/-- Removal of a key, used to state "the receipt body excluding the
digest field". -/
def dictRemove : PyDict → String → PyDict
  | [], _ => []
  | (k, v) :: rest, key =>
    if k = key then dictRemove rest key else (k, v) :: dictRemove rest key

/-- Python truthiness of `result.get("success")` (line 300): a missing
key is falsy; `False`, `0`, `""` and `{}` are falsy. -/
def truthy : Option RVal → Bool
  | none => false
  | some (.jstr s) => s != ""
  | some (.jint n) => n != 0
  | some (.jbool b) => b
  | some (.jdict []) => false
  | some (.jdict (_ :: _)) => true

/-- JSON string escaping for the characters that need it here. -/
def jsonEscapeChar (c : Char) : String :=
  if c = '"' then "\\\"" else if c = '\\' then "\\\\" else String.singleton c

def jsonEscape (s : String) : String :=
  String.join (s.data.map jsonEscapeChar)

def jsonStr (s : String) : String :=
  "\"" ++ jsonEscape s ++ "\""

/-- Keys in lexicographic order, as `json.dumps(..., sort_keys=True)`
sorts them.  Python's sort is stable; insertion sort models it. -/
def sortByKey {α : Type} (l : List (String × α)) : List (String × α) :=
  l.insertionSort (fun p q => p.1 ≤ q.1)

/-- `json.dumps` rendering of one value with `sort_keys=True` and the
default separators. -/
def jdump : RVal → String
  | .jstr s => jsonStr s
  | .jint n => toString n
  | .jbool b => if b then "true" else "false"
  | .jdict m =>
    "\x7b" ++ String.intercalate ", "
      ((sortByKey m).map (fun p => jsonStr p.1 ++ ": " ++ toString p.2)) ++ "\x7d"

/-- `json.dumps(receipt, sort_keys=True)` (line 306): the canonical
serialization of a receipt dict — fields in lexicographic key order. -/
def jdumpDict (d : PyDict) : String :=
  "\x7b" ++ String.intercalate ", "
    ((sortByKey d).map (fun p => jsonStr p.1 ++ ": " ++ jdump p.2)) ++ "\x7d"

/-- The digest the generator computes for a receipt body (lines
306-307): the hex digest of the canonical serialization.
`hashlib.sha256(...).hexdigest()` is an external primitive, passed in
as `sha256hex`. -/
def digestOf (sha256hex : String → String) (body : PyDict) : String :=
  sha256hex (jdumpDict body)

/-- The receipt body built by `generate_receipt` before the digest is
attached (lines 292-303): the base fields, and on success also
`counts`, `shots` and the vendor job id (the `receipt["job_id"] = ...`
assignment replaces the existing binding in place).  `now` models the
clock (`time.time()` / `int(time.time())`). -/
def receiptBody (now : Int) (result : PyDict) (jobId : String) : PyDict :=
  let receipt : PyDict :=
    [("job_id", .jstr jobId),
     ("provider", (dictGet result "provider").getD (.jstr "unknown")),
     ("success", (dictGet result "success").getD (.jbool false)),
     ("execution_time", (dictGet result "execution_time").getD (.jint now)),
     ("timestamp", .jint now)]
  if truthy (dictGet result "success") then
    let receipt := dictSet receipt "counts" ((dictGet result "counts").getD (.jdict []))
    let receipt := dictSet receipt "shots" ((dictGet result "shots").getD (.jint 0))
    dictSet receipt "job_id" ((dictGet result "job_id").getD (.jstr jobId))
  else receipt

/-- `generate_receipt` (lines 290-309): serialize the body canonically
(line 306), hash it, and attach the digest (line 307). -/
def generateReceipt (sha256hex : String → String) (now : Int)
    (result : PyDict) (jobId : String) : PyDict :=
  dictSet (receiptBody now result jobId) "digest"
    (.jstr (digestOf sha256hex (receiptBody now result jobId)))

/-- One gate record of the input circuit JSON: `gate["type"]`,
`gate["qubits"]`, optional `angle`.  Out-of-range qubit indexing (a
Python `IndexError`) is not modelled; indexing uses `getD`. -/
structure Gate where
  gtype : String
  qubits : List Nat
  angle : Option ℚ
deriving DecidableEq

/-- The circuit JSON: `num_qubits` plus the ordered gate list. -/
structure Circuit where
  numQubits : Nat
  gates : List Gate
deriving DecidableEq

/-- Qiskit circuit operations: `qc.h(q)`, `qc.cx(control, target)`,
`qc.rz(angle, q)`, `qc.ry(angle, q)`. -/
inductive QiskitOp where
  | h (q : Nat)
  | cx (control target : Nat)
  | rz (angle : ℚ) (q : Nat)
  | ry (angle : ℚ) (q : Nat)
deriving DecidableEq

/-- Gate translation shared verbatim by `_execute_qiskit_simulator`
(lines 66-77) and `_build_circuit` (lines 263-274): `h`, `cx`, `rz`,
`ry` are appended; a gate of any other kind falls through the if/elif
chain and is silently dropped.  `rz`/`ry` use `gate.get("angle", 0)`. -/
def buildQiskitGates : List Gate → List QiskitOp
  | [] => []
  | g :: rest =>
    let tail := buildQiskitGates rest
    if g.gtype = "h" then .h (g.qubits.getD 0 0) :: tail
    else if g.gtype = "cx" then .cx (g.qubits.getD 0 0) (g.qubits.getD 1 0) :: tail
    else if g.gtype = "rz" then .rz (g.angle.getD 0) (g.qubits.getD 0 0) :: tail
    else if g.gtype = "ry" then .ry (g.angle.getD 0) (g.qubits.getD 0 0) :: tail
    else tail

/-- Cirq operations appended by `_execute_google`:
`cirq.H(q)` and `cirq.CNOT(control, target)`. -/
inductive CirqOp where
  | hGate (q : Nat)
  | cnot (control target : Nat)
deriving DecidableEq

/-- `_execute_google` lines 181-185: only `h` and `cx` are translated
(`cirq.CNOT(qubits[0], qubits[1])` is controlled on `qubits[0]`);
every other kind is silently dropped. -/
def buildGoogleCircuit : List Gate → List CirqOp
  | [] => []
  | g :: rest =>
    let tail := buildGoogleCircuit rest
    if g.gtype = "h" then .hGate (g.qubits.getD 0 0) :: tail
    else if g.gtype = "cx" then .cnot (g.qubits.getD 0 0) (g.qubits.getD 1 0) :: tail
    else tail

/-- `_build_ionq_circuit` lines 278-288.  Note `gates.append(ionq_gate)`
is unconditional, so an unrecognized kind appends the empty dict `{}`;
and for `cx` the code writes `target: qubits[0], control: qubits[1]`. -/
def buildIonqCircuit : List Gate → List PyDict
  | [] => []
  | g :: rest =>
    let ionqGate : PyDict :=
      if g.gtype = "h" then
        [("gate", .jstr "h"), ("target", .jint (g.qubits.getD 0 0 : Nat))]
      else if g.gtype = "cx" then
        [("gate", .jstr "cnot"), ("target", .jint (g.qubits.getD 0 0 : Nat)),
         ("control", .jint (g.qubits.getD 1 0 : Nat))]
      else []
    ionqGate :: buildIonqCircuit rest

/-- `_execute_qiskit_simulator` (lines 55-99).  `sim` is the oracle for
the try-block's external effects (qiskit import, Aer backend,
`execute`/`get_counts`), applied to the built circuit: either the
measured counts, or a raised exception's `str(e)`. -/
def executeQiskitSimulator
    (sim : Nat → List QiskitOp → Nat → Except String (List (String × Int)))
    (now : Int) (circ : Circuit) (shots : Nat) : PyDict :=
  match sim circ.numQubits (buildQiskitGates circ.gates) shots with
  | .ok counts =>
    [("provider", .jstr "qiskit_simulator"), ("success", .jbool true),
     ("counts", .jdict counts), ("shots", .jint shots),
     ("execution_time", .jint now)]
  | .error e =>
    [("provider", .jstr "qiskit_simulator"), ("success", .jbool false),
     ("error", .jstr e)]

/-- External behavior of the IBM vendor for one job.  `statusName i` is
`job.status().name` at the i-th call (lines 135, 139, 155 each call it
anew). -/
structure IBMEnv where
  importOk : Bool
  preSubmit : Except String Unit
  backendName : String
  statusName : Nat → String
  counts : List (String × Int)
  vendorJobId : String

/-- The wait loop of `_execute_ibm` (lines 132-137): `max_wait = 300`,
each iteration sleeps 5 and adds 5 to `wait_time`; every evaluation of
the loop condition calls `job.status()` once.  Returns the index of the
last in-loop status call and the final `wait_time`. -/
def ibmPollLoop (statusName : Nat → String) (callIdx waitTime : Nat) : Nat × Nat :=
  if h : (statusName callIdx = "DONE" ∨ statusName callIdx = "ERROR")
      ∨ 300 ≤ waitTime then
    (callIdx, waitTime)
  else
    ibmPollLoop statusName (callIdx + 1) (waitTime + 5)
termination_by 300 - waitTime
decreasing_by
  rw [not_or] at h
  omega

/-- `_execute_ibm` (lines 101-168).  The missing-library path returns
the pip message (lines 157-162); exceptions before/at submission are
`preSubmit`; after the wait loop, line 139 calls `job.status()` once
more (call `k+1`), and on the failure path the f-string at line 155
calls it yet again (call `k+2`). -/
def executeIBM (env : IBMEnv) (now : Int) : PyDict :=
  if env.importOk = false then
    [("provider", .jstr "ibm"), ("success", .jbool false),
     ("error", .jstr "qiskit-ibm-provider not installed. Install with: pip install qiskit-ibm-provider")]
  else
    match env.preSubmit with
    | .error e =>
      [("provider", .jstr "ibm"), ("success", .jbool false), ("error", .jstr e)]
    | .ok _ =>
      let k := (ibmPollLoop env.statusName 0 0).1
      if env.statusName (k + 1) = "DONE" then
        [("provider", .jstr "ibm"), ("backend", .jstr env.backendName),
         ("success", .jbool true), ("counts", .jdict env.counts),
         ("job_id", .jstr env.vendorJobId), ("execution_time", .jint now)]
      else
        [("provider", .jstr "ibm"), ("success", .jbool false),
         ("error", .jstr ("Job status: " ++ env.statusName (k + 2)))]

/-- External behavior of the Google vendor: `run` receives the built
cirq circuit and the repetition count and yields `str(result)` from the
sampler, or a raised exception's `str(e)` (anywhere in lines 174-192,
including import and authentication). -/
structure GoogleEnv where
  run : List CirqOp → Nat → Except String String
  processor : String

/-- `_execute_google` (lines 170-206). -/
def executeGoogle (env : GoogleEnv) (now : Int) (circ : Circuit) (shots : Nat) : PyDict :=
  match env.run (buildGoogleCircuit circ.gates) shots with
  | .ok resultStr =>
    [("provider", .jstr "google"), ("processor", .jstr env.processor),
     ("success", .jbool true), ("results", .jstr resultStr),
     ("execution_time", .jint now)]
  | .error e =>
    [("provider", .jstr "google"), ("success", .jbool false), ("error", .jstr e)]

/-- One decoded response of the IonQ status endpoint:
`status["status"]`, `status.get("results", {})`,
`status.get("error", "Unknown error")`. -/
structure IonqStatusResp where
  status : String
  results : Option RVal
  errorMsg : Option String

/-- External behavior of the IonQ vendor: `post` receives the built
IonQ circuit and the shot count and yields the submitted job's id (or a
raised exception's `str(e)`, covering transport errors and
`raise_for_status`); `statusAt i` is the i-th status poll. -/
structure IonqEnv where
  post : List PyDict → Nat → Except String String
  statusAt : Nat → Except String IonqStatusResp

/-- The `while True` polling loop of `_execute_ionq` (lines 231-248):
no wait bound; each non-terminal poll sleeps 5 and polls again.  `fuel`
bounds how many polls are observed: `none` means the loop is still
running after `fuel` polls.  An exception raised during polling is
caught by the handler at lines 249-254. -/
def ionqPollLoop (env : IonqEnv) (now : Int) (jobId : String) :
    Nat → Nat → Option PyDict
  | 0, _ => none
  | fuel + 1, i =>
    match env.statusAt i with
    | .error e =>
      some [("provider", .jstr "ionq"), ("success", .jbool false),
            ("error", .jstr e)]
    | .ok st =>
      if st.status = "completed" then
        some [("provider", .jstr "ionq"), ("success", .jbool true),
              ("results", st.results.getD (.jdict [])),
              ("job_id", .jstr jobId), ("execution_time", .jint now)]
      else if st.status = "failed" then
        some [("provider", .jstr "ionq"), ("success", .jbool false),
              ("error", .jstr (st.errorMsg.getD "Unknown error"))]
      else ionqPollLoop env now jobId fuel (i + 1)

/-- `_execute_ionq` (lines 208-254): build the IonQ circuit, POST it,
then poll.  A failed POST is caught into an error dict. -/
def executeIonq (env : IonqEnv) (now : Int) (circ : Circuit) (shots : Nat)
    (fuel : Nat) : Option PyDict :=
  match env.post (buildIonqCircuit circ.gates) shots with
  | .error e =>
    some [("provider", .jstr "ionq"), ("success", .jbool false),
          ("error", .jstr e)]
  | .ok jobId => ionqPollLoop env now jobId fuel 0

/-- The slice of a `QPU_PROVIDERS` entry that `execute_circuit`
consults: the optional `"type"` key (URLs and credentials are read by
the adapters and folded into their oracles). -/
structure ProviderConfig where
  ctype : Option String
deriving DecidableEq

/-- `QPU_PROVIDERS` (lines 15-33) as a keyed lookup: only the simulator
entry carries `"type": "simulator"`. -/
def qpuProviders (provider : String) : Option ProviderConfig :=
  if provider = "ibm" then some ⟨none⟩
  else if provider = "google" then some ⟨none⟩
  else if provider = "ionq" then some ⟨none⟩
  else if provider = "qiskit_simulator" then some ⟨some "simulator"⟩
  else none

/-- `__init__` line 38:
`QPU_PROVIDERS.get(provider, QPU_PROVIDERS["qiskit_simulator"])`. -/
def bridgeConfig (provider : String) : ProviderConfig :=
  (qpuProviders provider).getD ⟨some "simulator"⟩

/-- Outcome of one `execute_circuit` call: a returned dict, a raised
`ValueError` (line 53), or — for the unbounded IonQ loop — still
polling after the given fuel. -/
inductive ExecOutcome where
  | value (d : PyDict)
  | hang
  | raised (msg : String)
deriving DecidableEq

/-- All the oracles one bridge invocation may consult, plus the clock. -/
structure BridgeEnv where
  sim : Nat → List QiskitOp → Nat → Except String (List (String × Int))
  ibm : IBMEnv
  google : GoogleEnv
  ionq : IonqEnv
  now : Int

/-- `execute_circuit` (lines 40-53): dispatch on `config.get("type")`
and then on the provider name. -/
def executeCircuit (provider : String) (env : BridgeEnv) (circ : Circuit)
    (shots : Nat) (fuel : Nat) : ExecOutcome :=
  let config := bridgeConfig provider
  if config.ctype = some "simulator" then
    .value (executeQiskitSimulator env.sim env.now circ shots)
  else if provider = "ibm" then .value (executeIBM env.ibm env.now)
  else if provider = "google" then .value (executeGoogle env.google env.now circ shots)
  else if provider = "ionq" then
    match executeIonq env.ionq env.now circ shots fuel with
    | some d => .value d
    | none => .hang
  else .raised ("Unknown provider: " ++ provider)

/-! ## Concrete fixtures used to instantiate the theorems below -/

/-- A vendor whose job status is `RUNNING` forever. -/
def runningIBMEnv : IBMEnv :=
  { importOk := true, preSubmit := .ok (), backendName := "ibmq_qasm_simulator",
    statusName := fun _ => "RUNNING", counts := [], vendorJobId := "v1" }

/-- A bridge environment in which every vendor interaction raises. -/
def failingBridgeEnv : BridgeEnv :=
  { sim := fun _ _ _ => .error "boom",
    ibm := { importOk := true, preSubmit := .error "boom", backendName := "b",
             statusName := fun _ => "RUNNING", counts := [], vendorJobId := "v" },
    google := { run := fun _ _ => .error "boom", processor := "p" },
    ionq := { post := fun _ _ => .error "boom", statusAt := fun _ => .error "boom" },
    now := 0 }

/-- A bridge environment whose simulator reports every shot as `00`. -/
def okBridgeEnv : BridgeEnv :=
  { sim := fun _ _ shots => .ok [("00", (shots : Int))],
    ibm := runningIBMEnv,
    google := { run := fun _ _ => .ok "res", processor := "rainbow" },
    ionq := { post := fun _ _ => .ok "J", statusAt := fun _ => .ok ⟨"running", none, none⟩ },
    now := 0 }

/-- An IonQ vendor that accepts the job and stays `running` forever. -/
def ionqRunningEnv : IonqEnv :=
  { post := fun _ _ => .ok "J1", statusAt := fun _ => .ok ⟨"running", none, none⟩ }

/-- An IonQ vendor that reports `completed` immediately. -/
def ionqCompletedEnv : IonqEnv :=
  { post := fun _ _ => .ok "J2",
    statusAt := fun _ => .ok ⟨"completed", some (.jdict [("0", 100)]), none⟩ }

/-- An IonQ vendor that reports `failed` immediately. -/
def ionqFailedEnv : IonqEnv :=
  { post := fun _ _ => .ok "J3",
    statusAt := fun _ => .ok ⟨"failed", none, some "rejected"⟩ }

/-- A circuit containing a gate of unknown kind `swap`. -/
def swapCircuit : Circuit :=
  { numQubits := 2, gates := [{ gtype := "swap", qubits := [0, 1], angle := none }] }

/-- A one-gate `cx` circuit with control `0` and target `1` (the role
convention of the Qiskit and Cirq adapters in this file). -/
def cxCircuit : Circuit :=
  { numQubits := 2, gates := [{ gtype := "cx", qubits := [0, 1], angle := none }] }

/-! ## Helper lemmas -/

theorem dictGet_dictSet_self (d : PyDict) (k : String) (v : RVal) :
    dictGet (dictSet d k v) k = some v := by
  induction d with
  | nil => simp [dictSet, dictGet]
  | cons p rest ih =>
    obtain ⟨k0, w⟩ := p
    by_cases h : k0 = k
    · simp [dictSet, dictGet, h]
    · simp [dictSet, dictGet, h, ih]

theorem dictRemove_dictSet_fresh (d : PyDict) (k : String) (v : RVal)
    (h : ∀ p ∈ d, p.1 ≠ k) : dictRemove (dictSet d k v) k = d := by
  induction d with
  | nil => simp [dictSet, dictRemove]
  | cons p rest ih =>
    obtain ⟨k0, w⟩ := p
    have hk0 : k0 ≠ k := h (k0, w) (List.mem_cons_self _ _)
    have hrest : ∀ p ∈ rest, p.1 ≠ k := fun p hp => h p (List.mem_cons_of_mem _ hp)
    simp [dictSet, dictRemove, hk0, ih hrest]

theorem receiptBody_digest_fresh (now : Int) (result : PyDict) (jobId : String) :
    ∀ p ∈ receiptBody now result jobId, p.1 ≠ "digest" := by
  unfold receiptBody
  by_cases h : truthy (dictGet result "success") <;>
    simp [h, dictSet]

theorem sortByKey_eq_of_perm {α : Type} {l₁ l₂ : List (String × α)}
    (hp : l₁.Perm l₂) (hnd : (l₁.map Prod.fst).Nodup) :
    sortByKey l₁ = sortByKey l₂ := by
  haveI : IsTotal (String × α) (fun p q => p.1 ≤ q.1) := ⟨fun a b => le_total a.1 b.1⟩
  haveI : IsTrans (String × α) (fun p q => p.1 ≤ q.1) := ⟨fun _ _ _ h1 h2 => le_trans h1 h2⟩
  haveI : IsAntisymm (String × α) (fun p q => p.1 < q.1) :=
    ⟨fun _ _ h1 h2 => absurd h2 (lt_asymm h1)⟩
  have hperm : (sortByKey l₁).Perm (sortByKey l₂) :=
    ((List.perm_insertionSort _ l₁).trans hp).trans (List.perm_insertionSort _ l₂).symm
  have hs₁ : List.Sorted (fun p q : String × α => p.1 ≤ q.1) (sortByKey l₁) :=
    List.sorted_insertionSort _ l₁
  have hs₂ : List.Sorted (fun p q : String × α => p.1 ≤ q.1) (sortByKey l₂) :=
    List.sorted_insertionSort _ l₂
  have hnd₁ : ((sortByKey l₁).map Prod.fst).Nodup :=
    (((List.perm_insertionSort _ l₁).map Prod.fst).nodup_iff).mpr hnd
  have hnd₂ : ((sortByKey l₂).map Prod.fst).Nodup :=
    (((List.perm_insertionSort _ l₂).map Prod.fst).nodup_iff).mpr
      (((hp.map Prod.fst).nodup_iff).mp hnd)
  have strict : ∀ l : List (String × α),
      List.Sorted (fun p q : String × α => p.1 ≤ q.1) l → (l.map Prod.fst).Nodup →
      List.Sorted (fun p q : String × α => p.1 < q.1) l := by
    intro l hs hn
    rw [List.Nodup, List.pairwise_map] at hn
    exact (hs.and hn).imp (fun h => lt_of_le_of_ne h.1 h.2)
  exact List.eq_of_perm_of_sorted hperm (strict _ hs₁ hnd₁) (strict _ hs₂ hnd₂)

theorem jdumpDict_eq_of_perm {b₁ b₂ : PyDict}
    (hp : b₁.Perm b₂) (hnd : (b₁.map Prod.fst).Nodup) :
    jdumpDict b₁ = jdumpDict b₂ := by
  unfold jdumpDict
  rw [sortByKey_eq_of_perm hp hnd]

/-! ## C1 — digest over the canonical serialization, insertion-order independent -/

/-- C1: `generate_receipt` sets `digest` to the hash of the canonical
serialization (JSON with lexicographically sorted field names) of the
receipt with the digest field itself excluded; and the digest computed
for a receipt body does not depend on the order in which fields were
inserted: any two bodies with the same key/value bindings (same keys,
values attached, keys unique) receive the identical digest. -/
theorem generateReceipt_digest_canonical (sha256hex : String → String)
    (now : Int) (result : PyDict) (jobId : String) (b₁ b₂ : PyDict)
    (hperm : b₁.Perm b₂) (hnd : (b₁.map Prod.fst).Nodup) :
    dictGet (generateReceipt sha256hex now result jobId) "digest"
      = some (.jstr (digestOf sha256hex
          (dictRemove (generateReceipt sha256hex now result jobId) "digest")))
    ∧ digestOf sha256hex b₁ = digestOf sha256hex b₂ := by
  constructor
  · unfold generateReceipt
    rw [dictRemove_dictSet_fresh _ _ _ (receiptBody_digest_fresh now result jobId)]
    exact dictGet_dictSet_self _ _ _
  · unfold digestOf
    rw [jdumpDict_eq_of_perm hperm hnd]

/-- Instantiation of C1 at concrete inputs: a successful IBM-style
result, and two bodies holding the same bindings in opposite order. -/
theorem generateReceipt_digest_canonical_witness :
    dictGet (generateReceipt (fun s => s) 7
        [("provider", RVal.jstr "ibm"), ("success", RVal.jbool true),
         ("counts", RVal.jdict [("00", 2)]), ("shots", RVal.jint 2)] "job-1") "digest"
      = some (.jstr (digestOf (fun s => s)
          (dictRemove (generateReceipt (fun s => s) 7
            [("provider", RVal.jstr "ibm"), ("success", RVal.jbool true),
             ("counts", RVal.jdict [("00", 2)]), ("shots", RVal.jint 2)] "job-1") "digest")))
    ∧ digestOf (fun s => s) [("a", RVal.jint 1), ("b", RVal.jint 2)]
        = digestOf (fun s => s) [("b", RVal.jint 2), ("a", RVal.jint 1)] :=
  generateReceipt_digest_canonical (fun s => s) 7
    [("provider", RVal.jstr "ibm"), ("success", RVal.jbool true),
     ("counts", RVal.jdict [("00", 2)]), ("shots", RVal.jint 2)] "job-1"
    [("a", RVal.jint 1), ("b", RVal.jint 2)] [("b", RVal.jint 2), ("a", RVal.jint 1)]
    (List.Perm.swap _ _ _) (by decide)

/-! ## C2 — vendor-side failures are captured, never raised -/

/-- C2: for every recognized provider, `execute_circuit` returns a
value (never the `ValueError` raise); and whenever the vendor-side
interaction of an adapter fails (simulator execution, IBM
authentication/submission, Google sampler, IonQ job POST), the adapter
returns a result dict with `success = false` and the error string —
and a receipt (with a digest) is still produced from any result dict. -/
theorem executeCircuit_captures_vendor_failures (env : BridgeEnv)
    (circ : Circuit) (shots fuel : Nat) (provider : String) (e : String)
    (hprov : provider = "ibm" ∨ provider = "google" ∨ provider = "ionq"
      ∨ provider = "qiskit_simulator")
    (himport : env.ibm.importOk = true)
    (hsim : env.sim circ.numQubits (buildQiskitGates circ.gates) shots = .error e)
    (hibm : env.ibm.preSubmit = .error e)
    (hgoogle : env.google.run (buildGoogleCircuit circ.gates) shots = .error e)
    (hionq : env.ionq.post (buildIonqCircuit circ.gates) shots = .error e) :
    (∀ msg, executeCircuit provider env circ shots fuel ≠ .raised msg)
    ∧ executeQiskitSimulator env.sim env.now circ shots
        = [("provider", .jstr "qiskit_simulator"), ("success", .jbool false),
           ("error", .jstr e)]
    ∧ executeIBM env.ibm env.now
        = [("provider", .jstr "ibm"), ("success", .jbool false), ("error", .jstr e)]
    ∧ executeGoogle env.google env.now circ shots
        = [("provider", .jstr "google"), ("success", .jbool false), ("error", .jstr e)]
    ∧ executeIonq env.ionq env.now circ shots fuel
        = some [("provider", .jstr "ionq"), ("success", .jbool false), ("error", .jstr e)]
    ∧ (∀ sha jobId d, dictGet (generateReceipt sha env.now d jobId) "digest" ≠ none) := by
  refine ⟨?_, ?_, ?_, ?_, ?_, ?_⟩
  · intro msg
    rcases hprov with h | h | h | h <;> subst h <;>
      simp only [executeCircuit, bridgeConfig, qpuProviders] <;> simp <;>
      cases executeIonq env.ionq env.now circ shots fuel <;> simp
  · simp [executeQiskitSimulator, hsim]
  · simp [executeIBM, himport, hibm]
  · simp [executeGoogle, hgoogle]
  · simp [executeIonq, hionq]
  · intro sha jobId d
    simp [generateReceipt, dictGet_dictSet_self]

/-- Instantiation of C2: an environment in which every vendor
interaction raises `boom`, dispatched to the IBM provider. -/
theorem executeCircuit_captures_vendor_failures_witness :
    (∀ msg, executeCircuit "ibm" failingBridgeEnv cxCircuit 1024 3 ≠ .raised msg)
    ∧ executeQiskitSimulator failingBridgeEnv.sim failingBridgeEnv.now cxCircuit 1024
        = [("provider", .jstr "qiskit_simulator"), ("success", .jbool false),
           ("error", .jstr "boom")]
    ∧ executeIBM failingBridgeEnv.ibm failingBridgeEnv.now
        = [("provider", .jstr "ibm"), ("success", .jbool false), ("error", .jstr "boom")]
    ∧ executeGoogle failingBridgeEnv.google failingBridgeEnv.now cxCircuit 1024
        = [("provider", .jstr "google"), ("success", .jbool false), ("error", .jstr "boom")]
    ∧ executeIonq failingBridgeEnv.ionq failingBridgeEnv.now cxCircuit 1024 3
        = some [("provider", .jstr "ionq"), ("success", .jbool false), ("error", .jstr "boom")]
    ∧ (∀ sha jobId d,
        dictGet (generateReceipt sha failingBridgeEnv.now d jobId) "digest" ≠ none) :=
  executeCircuit_captures_vendor_failures failingBridgeEnv cxCircuit 1024 3 "ibm" "boom"
    (by decide) rfl rfl rfl rfl rfl

/-! ## C9 — unknown providers fall back to the simulator; the raise is dead code -/

/-- C9: the constructor's `QPU_PROVIDERS.get(provider, simulator)`
fallback gives every unrecognized provider string the simulator
configuration, so `execute_circuit` runs the local simulator and
returns its result; consequently the `raise ValueError` branch of
`execute_circuit` is unreachable for every provider string. -/
theorem executeCircuit_raise_unreachable (provider : String) (env : BridgeEnv)
    (circ : Circuit) (shots fuel : Nat)
    (hunknown : provider ≠ "ibm" ∧ provider ≠ "google" ∧ provider ≠ "ionq"
      ∧ provider ≠ "qiskit_simulator") :
    executeCircuit provider env circ shots fuel
      = .value (executeQiskitSimulator env.sim env.now circ shots)
    ∧ ∀ (provider2 : String) (msg : String),
        executeCircuit provider2 env circ shots fuel ≠ .raised msg := by
  constructor
  · obtain ⟨h1, h2, h3, h4⟩ := hunknown
    simp [executeCircuit, bridgeConfig, qpuProviders, h1, h2, h3, h4]
  · intro provider2 msg
    by_cases h1 : provider2 = "ibm"
    · simp [executeCircuit, bridgeConfig, qpuProviders, h1]
    by_cases h2 : provider2 = "google"
    · simp [executeCircuit, bridgeConfig, qpuProviders, h1, h2]
    by_cases h3 : provider2 = "ionq"
    · simp [executeCircuit, bridgeConfig, qpuProviders, h1, h2, h3]
      cases executeIonq env.ionq env.now circ shots fuel <;> simp
    by_cases h4 : provider2 = "qiskit_simulator"
    · simp [executeCircuit, bridgeConfig, qpuProviders, h1, h2, h3, h4]
    · simp [executeCircuit, bridgeConfig, qpuProviders, h1, h2, h3, h4]

/-- Instantiation of C9 at the unrecognized provider `rigetti`. -/
theorem executeCircuit_raise_unreachable_witness :
    executeCircuit "rigetti" okBridgeEnv cxCircuit 1024 3
      = .value (executeQiskitSimulator okBridgeEnv.sim okBridgeEnv.now cxCircuit 1024)
    ∧ ∀ (provider2 : String) (msg : String),
        executeCircuit provider2 okBridgeEnv cxCircuit 1024 3 ≠ .raised msg :=
  executeCircuit_raise_unreachable "rigetti" okBridgeEnv cxCircuit 1024 3 (by decide)

/-! ## IBM wait-loop lemmas -/

theorem ibmPollLoop_never_terminal (s : Nat → String)
    (h : ∀ n, s n ≠ "DONE" ∧ s n ≠ "ERROR") :
    ∀ m k w, 5 * m + w = 300 → ibmPollLoop s k w = (k + m, 300) := by
  intro m
  induction m with
  | zero =>
    intro k w hw
    have hw' : w = 300 := by omega
    subst hw'
    rw [ibmPollLoop, dif_pos (Or.inr (le_refl 300))]
    simp
  | succ m ih =>
    intro k w hw
    have hcond : ¬ ((s k = "DONE" ∨ s k = "ERROR") ∨ 300 ≤ w) := by
      push_neg
      exact ⟨⟨(h k).1, (h k).2⟩, by omega⟩
    rw [ibmPollLoop, dif_neg hcond, ih (k + 1) (w + 5) (by omega)]
    congr 1
    omega

theorem executeIBM_never_terminal (env : IBMEnv) (now : Int)
    (himport : env.importOk = true) (hsubmit : env.preSubmit = .ok ())
    (h : ∀ n, env.statusName n ≠ "DONE" ∧ env.statusName n ≠ "ERROR") :
    executeIBM env now
      = [("provider", .jstr "ibm"), ("success", .jbool false),
         ("error", .jstr ("Job status: " ++ env.statusName 62))] := by
  have hloop : ibmPollLoop env.statusName 0 0 = (60, 300) :=
    ibmPollLoop_never_terminal env.statusName h 60 0 0 (by omega)
  simp [executeIBM, himport, hsubmit, hloop, (h 61).1]

/-! ## C4 — what a timed-out IBM job actually reports -/

theorem runningIBMEnv_never_terminal :
    ∀ n, runningIBMEnv.statusName n ≠ "DONE" ∧ runningIBMEnv.statusName n ≠ "ERROR" :=
  fun _ => ⟨(by decide : ("RUNNING" : String) ≠ "DONE"),
            (by decide : ("RUNNING" : String) ≠ "ERROR")⟩

/-- C4 counterexample: with a vendor that stays `RUNNING` forever, the
IBM adapter does return `success = false` once the bound is exhausted,
but its error string is `Job status: RUNNING`, not `timeout`. -/
theorem executeIBM_timeout_error_string_counterexample :
    dictGet (executeIBM runningIBMEnv 0) "success" = some (.jbool false)
    ∧ dictGet (executeIBM runningIBMEnv 0) "error"
        = some (.jstr "Job status: RUNNING")
    ∧ "Job status: RUNNING" ≠ "timeout" := by
  rw [executeIBM_never_terminal runningIBMEnv 0 rfl rfl runningIBMEnv_never_terminal]
  exact ⟨by decide, by decide, by decide⟩

/-- C4 as amended: when the IBM adapter's wait bound is exhausted with
a vendor status that never becomes terminal, it returns a result with
`success = false` whose error string is `"Job status: "` followed by
the vendor's status name (the f-string at line 155 re-polls, so it is
the name reported by the 63rd status call). -/
theorem executeIBM_bound_exhausted_failed (env : IBMEnv) (now : Int)
    (himport : env.importOk = true) (hsubmit : env.preSubmit = .ok ())
    (h : ∀ n, env.statusName n ≠ "DONE" ∧ env.statusName n ≠ "ERROR") :
    dictGet (executeIBM env now) "success" = some (.jbool false)
    ∧ dictGet (executeIBM env now) "error"
        = some (.jstr ("Job status: " ++ env.statusName 62)) := by
  rw [executeIBM_never_terminal env now himport hsubmit h]
  exact ⟨by simp [dictGet], by simp [dictGet]⟩

/-- Instantiation of C4 (amended) at the always-`RUNNING` vendor. -/
theorem executeIBM_bound_exhausted_failed_witness :
    dictGet (executeIBM runningIBMEnv 0) "success" = some (.jbool false)
    ∧ dictGet (executeIBM runningIBMEnv 0) "error"
        = some (.jstr ("Job status: " ++ runningIBMEnv.statusName 62)) :=
  executeIBM_bound_exhausted_failed runningIBMEnv 0 rfl rfl
    runningIBMEnv_never_terminal

/-! ## C5 — the timeout boundary of the IBM wait loop -/

/-- C5 counterexample: with a vendor that never reaches a terminal
status, the loop is abandoned with elapsed wait exactly 300 — a value
that does not exceed the bound — so the transition does not happen
"when elapsed wait first exceeds the bound". -/
theorem ibmPollLoop_abandons_at_bound_counterexample :
    (ibmPollLoop (fun _ => "RUNNING") 0 0).2 = 300
    ∧ ¬ (300 : Nat) < (ibmPollLoop (fun _ => "RUNNING") 0 0).2
    ∧ dictGet (executeIBM runningIBMEnv 0) "success" = some (.jbool false) := by
  have h : ∀ n, (fun _ : Nat => "RUNNING") n ≠ "DONE"
      ∧ (fun _ : Nat => "RUNNING") n ≠ "ERROR" :=
    fun _ => ⟨(by decide : ("RUNNING" : String) ≠ "DONE"),
              (by decide : ("RUNNING" : String) ≠ "ERROR")⟩
  have hloop := ibmPollLoop_never_terminal (fun _ => "RUNNING") h 60 0 0 (by omega)
  refine ⟨by rw [hloop], by rw [hloop]; omega, ?_⟩
  rw [executeIBM_never_terminal runningIBMEnv 0 rfl rfl h]
  decide

/-- C5 as amended: the IBM adapter polls on a fixed 5-time-unit
interval with bound 300, and with a never-terminal vendor the loop is
abandoned exactly when the elapsed wait first reaches (equals) 300:
from elapsed `w` on the 5-grid it performs exactly `(300 - w) / 5` more
sleeps and exits at elapsed exactly 300 (from the start: 60 sleeps, 61
in-loop polls), after which the adapter reports failure. -/
theorem ibmPollLoop_fixed_interval_bound (env : IBMEnv) (now : Int)
    (himport : env.importOk = true) (hsubmit : env.preSubmit = .ok ())
    (h : ∀ n, env.statusName n ≠ "DONE" ∧ env.statusName n ≠ "ERROR") :
    ibmPollLoop env.statusName 0 0 = (60, 300)
    ∧ (∀ m k w, 5 * m + w = 300 → ibmPollLoop env.statusName k w = (k + m, 300))
    ∧ dictGet (executeIBM env now) "success" = some (.jbool false) := by
  refine ⟨ibmPollLoop_never_terminal env.statusName h 60 0 0 (by omega),
    fun m k w hw => ibmPollLoop_never_terminal env.statusName h m k w hw, ?_⟩
  rw [executeIBM_never_terminal env now himport hsubmit h]
  simp [dictGet]

/-- Instantiation of C5 (amended) at the always-`RUNNING` vendor. -/
theorem ibmPollLoop_fixed_interval_bound_witness :
    ibmPollLoop runningIBMEnv.statusName 0 0 = (60, 300)
    ∧ (∀ m k w, 5 * m + w = 300 →
        ibmPollLoop runningIBMEnv.statusName k w = (k + m, 300))
    ∧ dictGet (executeIBM runningIBMEnv 0) "success" = some (.jbool false) :=
  ibmPollLoop_fixed_interval_bound runningIBMEnv 0 rfl rfl
    runningIBMEnv_never_terminal

/-! ## IonQ polling lemmas -/

theorem ionqPollLoop_nonterminal (env : IonqEnv) (now : Int) (jobId : String)
    (h : ∀ n, ∃ st, env.statusAt n = .ok st
      ∧ st.status ≠ "completed" ∧ st.status ≠ "failed") :
    ∀ fuel i, ionqPollLoop env now jobId fuel i = none := by
  intro fuel
  induction fuel with
  | zero => intro i; rfl
  | succ fuel ih =>
    intro i
    obtain ⟨st, hok, hc, hf⟩ := h i
    simp only [ionqPollLoop, hok]
    rw [if_neg hc, if_neg hf]
    exact ih (i + 1)

theorem ionqPollLoop_first_terminal (env : IonqEnv) (now : Int) (jobId : String) :
    ∀ k fuel i st, k < fuel →
      (∀ j, j < k → ∃ st2, env.statusAt (i + j) = .ok st2
        ∧ st2.status ≠ "completed" ∧ st2.status ≠ "failed") →
      env.statusAt (i + k) = .ok st →
      (st.status = "completed" →
        ionqPollLoop env now jobId fuel i
          = some [("provider", .jstr "ionq"), ("success", .jbool true),
                  ("results", st.results.getD (.jdict [])),
                  ("job_id", .jstr jobId), ("execution_time", .jint now)])
      ∧ (st.status = "failed" →
        ionqPollLoop env now jobId fuel i
          = some [("provider", .jstr "ionq"), ("success", .jbool false),
                  ("error", .jstr (st.errorMsg.getD "Unknown error"))]) := by
  intro k
  induction k with
  | zero =>
    intro fuel i st hfuel hpre hok
    obtain ⟨f, rfl⟩ : ∃ f, fuel = f + 1 := ⟨fuel - 1, by omega⟩
    rw [Nat.add_zero] at hok
    constructor
    · intro hc
      simp only [ionqPollLoop, hok]
      rw [if_pos hc]
    · intro hf
      have hc : st.status ≠ "completed" := by rw [hf]; decide
      simp only [ionqPollLoop, hok]
      rw [if_neg hc, if_pos hf]
  | succ k ih =>
    intro fuel i st hfuel hpre hok
    obtain ⟨f, rfl⟩ : ∃ f, fuel = f + 1 := ⟨fuel - 1, by omega⟩
    obtain ⟨st0, h0ok, h0c, h0f⟩ := by
      have := hpre 0 (by omega)
      rwa [Nat.add_zero] at this
    have step : ionqPollLoop env now jobId (f + 1) i
        = ionqPollLoop env now jobId f (i + 1) := by
      simp only [ionqPollLoop, h0ok]
      rw [if_neg h0c, if_neg h0f]
    rw [step]
    refine ih f (i + 1) st (by omega) ?_ ?_
    · intro j hj
      have := hpre (j + 1) (by omega)
      rwa [show i + (j + 1) = i + 1 + j by omega] at this
    · rwa [show i + 1 + k = i + (k + 1) by omega]

/-! ## C8 — IonQ polls indefinitely until completed or failed -/

/-- C8: after submitting the job, the IonQ adapter polls the status
endpoint with no wait bound.  With a vendor that never reports
`completed` or `failed` it never returns (no fuel suffices); if the
first terminal status is `completed` it returns success carrying the
extracted `results`; if it is `failed` it returns failure carrying the
vendor's error message. -/
theorem executeIonq_poll_until_terminal (now : Int) (circ : Circuit) (shots : Nat)
    (env₁ env₂ env₃ : IonqEnv) (jobId₁ jobId₂ jobId₃ : String)
    (k₂ k₃ : Nat) (st₂ st₃ : IonqStatusResp)
    (hpost₁ : env₁.post (buildIonqCircuit circ.gates) shots = .ok jobId₁)
    (hrun₁ : ∀ n, ∃ st, env₁.statusAt n = .ok st
      ∧ st.status ≠ "completed" ∧ st.status ≠ "failed")
    (hpost₂ : env₂.post (buildIonqCircuit circ.gates) shots = .ok jobId₂)
    (hpre₂ : ∀ j, j < k₂ → ∃ st, env₂.statusAt j = .ok st
      ∧ st.status ≠ "completed" ∧ st.status ≠ "failed")
    (hk₂ : env₂.statusAt k₂ = .ok st₂) (hc₂ : st₂.status = "completed")
    (hpost₃ : env₃.post (buildIonqCircuit circ.gates) shots = .ok jobId₃)
    (hpre₃ : ∀ j, j < k₃ → ∃ st, env₃.statusAt j = .ok st
      ∧ st.status ≠ "completed" ∧ st.status ≠ "failed")
    (hk₃ : env₃.statusAt k₃ = .ok st₃) (hf₃ : st₃.status = "failed") :
    (∀ fuel, executeIonq env₁ now circ shots fuel = none)
    ∧ (∀ fuel, k₂ < fuel → executeIonq env₂ now circ shots fuel
        = some [("provider", .jstr "ionq"), ("success", .jbool true),
                ("results", st₂.results.getD (.jdict [])),
                ("job_id", .jstr jobId₂), ("execution_time", .jint now)])
    ∧ (∀ fuel, k₃ < fuel → executeIonq env₃ now circ shots fuel
        = some [("provider", .jstr "ionq"), ("success", .jbool false),
                ("error", .jstr (st₃.errorMsg.getD "Unknown error"))]) := by
  refine ⟨?_, ?_, ?_⟩
  · intro fuel
    simp only [executeIonq, hpost₁]
    exact ionqPollLoop_nonterminal env₁ now jobId₁ hrun₁ fuel 0
  · intro fuel hfuel
    simp only [executeIonq, hpost₂]
    refine (ionqPollLoop_first_terminal env₂ now jobId₂ k₂ fuel 0 st₂ hfuel ?_ ?_).1 hc₂
    · intro j hj
      simpa using hpre₂ j hj
    · simpa using hk₂
  · intro fuel hfuel
    simp only [executeIonq, hpost₃]
    refine (ionqPollLoop_first_terminal env₃ now jobId₃ k₃ fuel 0 st₃ hfuel ?_ ?_).2 hf₃
    · intro j hj
      simpa using hpre₃ j hj
    · simpa using hk₃

/-- Instantiation of C8: a forever-`running` vendor, one answering
`completed` at the first poll, and one answering `failed` there. -/
theorem executeIonq_poll_until_terminal_witness :
    (∀ fuel, executeIonq ionqRunningEnv 0 cxCircuit 100 fuel = none)
    ∧ (∀ fuel, 0 < fuel → executeIonq ionqCompletedEnv 0 cxCircuit 100 fuel
        = some [("provider", .jstr "ionq"), ("success", .jbool true),
                ("results", (some (RVal.jdict [("0", 100)])).getD (.jdict [])),
                ("job_id", .jstr "J2"), ("execution_time", .jint 0)])
    ∧ (∀ fuel, 0 < fuel → executeIonq ionqFailedEnv 0 cxCircuit 100 fuel
        = some [("provider", .jstr "ionq"), ("success", .jbool false),
                ("error", .jstr ((some "rejected").getD "Unknown error"))]) :=
  executeIonq_poll_until_terminal 0 cxCircuit 100
    ionqRunningEnv ionqCompletedEnv ionqFailedEnv "J1" "J2" "J3" 0 0
    ⟨"completed", some (.jdict [("0", 100)]), none⟩
    ⟨"failed", none, some "rejected"⟩
    rfl
    (fun _ => ⟨⟨"running", none, none⟩, rfl,
      (by decide : ("running" : String) ≠ "completed"),
      (by decide : ("running" : String) ≠ "failed")⟩)
    rfl (fun j hj => absurd hj (Nat.not_lt_zero j)) rfl rfl
    rfl (fun j hj => absurd hj (Nat.not_lt_zero j)) rfl rfl

/-! ## Result-dict shape lemmas for the IonQ adapter -/

theorem ionqPollLoop_shapes (env : IonqEnv) (now : Int) (jobId : String) :
    ∀ fuel i d, ionqPollLoop env now jobId fuel i = some d →
      (dictGet d "error" ≠ none ↔ dictGet d "success" = some (.jbool false))
      ∧ (dictGet d "success" = some (.jbool true) →
          dictGet d "counts" = none ∧ dictGet d "results" ≠ none) := by
  intro fuel
  induction fuel with
  | zero =>
    intro i d h
    exact absurd h (by simp [ionqPollLoop])
  | succ fuel ih =>
    intro i d h
    simp only [ionqPollLoop] at h
    cases hst : env.statusAt i with
    | error e =>
      simp only [hst] at h
      injection h with h
      subst h
      simp [dictGet]
    | ok st =>
      simp only [hst] at h
      by_cases hc : st.status = "completed"
      · rw [if_pos hc] at h
        injection h with h
        subst h
        simp [dictGet]
      · rw [if_neg hc] at h
        by_cases hf : st.status = "failed"
        · rw [if_pos hf] at h
          injection h with h
          subst h
          simp [dictGet]
        · rw [if_neg hf] at h
          exact ih (i + 1) d h

theorem executeIonq_shapes (env : IonqEnv) (now : Int) (circ : Circuit)
    (shots fuel : Nat) (d : PyDict)
    (h : executeIonq env now circ shots fuel = some d) :
    (dictGet d "error" ≠ none ↔ dictGet d "success" = some (.jbool false))
    ∧ (dictGet d "success" = some (.jbool true) →
        dictGet d "counts" = none ∧ dictGet d "results" ≠ none) := by
  simp only [executeIonq] at h
  cases hp : env.post (buildIonqCircuit circ.gates) shots with
  | error e =>
    simp only [hp] at h
    injection h with h
    subst h
    simp [dictGet]
  | ok jobId =>
    simp only [hp] at h
    exact ionqPollLoop_shapes env now jobId fuel 0 d h

/-! ## C7 — which fields accompany success and failure -/

/-- C7 counterexample: a successful Google execution has
`success = true` but carries no `counts` field at all (it carries a
provider-specific `results` blob instead), refuting "`counts` present
iff success" for every adapter. -/
theorem executeGoogle_success_without_counts_counterexample :
    dictGet (executeGoogle okBridgeEnv.google 0 cxCircuit 100) "success"
      = some (.jbool true)
    ∧ dictGet (executeGoogle okBridgeEnv.google 0 cxCircuit 100) "counts" = none
    ∧ dictGet (executeGoogle okBridgeEnv.google 0 cxCircuit 100) "results" ≠ none := by
  decide

/-- C7 as amended: `error` is present iff `success` is false for every
adapter; `counts` is present iff `success` is true for the simulator
and IBM adapters; the Google and IonQ adapters instead carry a
`results` field and no `counts` on success. -/
theorem execResult_field_presence
    (sim : Nat → List QiskitOp → Nat → Except String (List (String × Int)))
    (ibmEnv : IBMEnv) (googleEnv : GoogleEnv) (ionqEnv : IonqEnv)
    (now : Int) (circ : Circuit) (shots fuel : Nat) (d : PyDict)
    (hionq : executeIonq ionqEnv now circ shots fuel = some d) :
    ((dictGet (executeQiskitSimulator sim now circ shots) "counts" ≠ none
        ↔ dictGet (executeQiskitSimulator sim now circ shots) "success" = some (.jbool true))
      ∧ (dictGet (executeQiskitSimulator sim now circ shots) "error" ≠ none
        ↔ dictGet (executeQiskitSimulator sim now circ shots) "success" = some (.jbool false)))
    ∧ ((dictGet (executeIBM ibmEnv now) "counts" ≠ none
        ↔ dictGet (executeIBM ibmEnv now) "success" = some (.jbool true))
      ∧ (dictGet (executeIBM ibmEnv now) "error" ≠ none
        ↔ dictGet (executeIBM ibmEnv now) "success" = some (.jbool false)))
    ∧ ((dictGet (executeGoogle googleEnv now circ shots) "error" ≠ none
        ↔ dictGet (executeGoogle googleEnv now circ shots) "success" = some (.jbool false))
      ∧ (dictGet (executeGoogle googleEnv now circ shots) "success" = some (.jbool true) →
          dictGet (executeGoogle googleEnv now circ shots) "counts" = none
          ∧ dictGet (executeGoogle googleEnv now circ shots) "results" ≠ none))
    ∧ ((dictGet d "error" ≠ none ↔ dictGet d "success" = some (.jbool false))
      ∧ (dictGet d "success" = some (.jbool true) →
          dictGet d "counts" = none ∧ dictGet d "results" ≠ none)) := by
  refine ⟨?_, ?_, ?_, executeIonq_shapes ionqEnv now circ shots fuel d hionq⟩
  · cases h : sim circ.numQubits (buildQiskitGates circ.gates) shots <;>
      simp [executeQiskitSimulator, h, dictGet]
  · by_cases hi : ibmEnv.importOk = false
    · simp [executeIBM, hi, dictGet]
    · cases hs : ibmEnv.preSubmit with
      | error e => simp [executeIBM, hi, hs, dictGet]
      | ok u =>
        by_cases hd : ibmEnv.statusName ((ibmPollLoop ibmEnv.statusName 0 0).1 + 1) = "DONE" <;>
          simp [executeIBM, hi, hs, hd, dictGet]
  · cases hg : googleEnv.run (buildGoogleCircuit circ.gates) shots <;>
      simp [executeGoogle, hg, dictGet]

/-- Instantiation of C7 (amended) with a vendor environment whose IonQ
job completes at the first poll. -/
theorem execResult_field_presence_witness :
    ((dictGet (executeQiskitSimulator okBridgeEnv.sim 0 cxCircuit 100) "counts" ≠ none
        ↔ dictGet (executeQiskitSimulator okBridgeEnv.sim 0 cxCircuit 100) "success" = some (.jbool true))
      ∧ (dictGet (executeQiskitSimulator okBridgeEnv.sim 0 cxCircuit 100) "error" ≠ none
        ↔ dictGet (executeQiskitSimulator okBridgeEnv.sim 0 cxCircuit 100) "success" = some (.jbool false)))
    ∧ ((dictGet (executeIBM runningIBMEnv 0) "counts" ≠ none
        ↔ dictGet (executeIBM runningIBMEnv 0) "success" = some (.jbool true))
      ∧ (dictGet (executeIBM runningIBMEnv 0) "error" ≠ none
        ↔ dictGet (executeIBM runningIBMEnv 0) "success" = some (.jbool false)))
    ∧ ((dictGet (executeGoogle okBridgeEnv.google 0 cxCircuit 100) "error" ≠ none
        ↔ dictGet (executeGoogle okBridgeEnv.google 0 cxCircuit 100) "success" = some (.jbool false))
      ∧ (dictGet (executeGoogle okBridgeEnv.google 0 cxCircuit 100) "success" = some (.jbool true) →
          dictGet (executeGoogle okBridgeEnv.google 0 cxCircuit 100) "counts" = none
          ∧ dictGet (executeGoogle okBridgeEnv.google 0 cxCircuit 100) "results" ≠ none))
    ∧ ((dictGet [("provider", RVal.jstr "ionq"), ("success", RVal.jbool true),
          ("results", RVal.jdict [("0", 100)]), ("job_id", RVal.jstr "J2"),
          ("execution_time", RVal.jint 0)] "error" ≠ none
        ↔ dictGet [("provider", RVal.jstr "ionq"), ("success", RVal.jbool true),
          ("results", RVal.jdict [("0", 100)]), ("job_id", RVal.jstr "J2"),
          ("execution_time", RVal.jint 0)] "success" = some (.jbool false))
      ∧ (dictGet [("provider", RVal.jstr "ionq"), ("success", RVal.jbool true),
          ("results", RVal.jdict [("0", 100)]), ("job_id", RVal.jstr "J2"),
          ("execution_time", RVal.jint 0)] "success" = some (.jbool true) →
          dictGet [("provider", RVal.jstr "ionq"), ("success", RVal.jbool true),
            ("results", RVal.jdict [("0", 100)]), ("job_id", RVal.jstr "J2"),
            ("execution_time", RVal.jint 0)] "counts" = none
          ∧ dictGet [("provider", RVal.jstr "ionq"), ("success", RVal.jbool true),
            ("results", RVal.jdict [("0", 100)]), ("job_id", RVal.jstr "J2"),
            ("execution_time", RVal.jint 0)] "results" ≠ none)) :=
  execResult_field_presence okBridgeEnv.sim runningIBMEnv okBridgeEnv.google
    ionqCompletedEnv 0 cxCircuit 100 1
    [("provider", RVal.jstr "ionq"), ("success", RVal.jbool true),
     ("results", RVal.jdict [("0", 100)]), ("job_id", RVal.jstr "J2"),
     ("execution_time", RVal.jint 0)]
    (by decide)

/-! ## C3 — there is no validation: unknown gate kinds are silently dropped -/

/-- C3 counterexample: a circuit containing the unknown gate kind
`swap` is not rejected — no validation error exists anywhere on the
path — the simulator adapter is invoked (the gate having been silently
dropped by the builder), the execution succeeds, and a receipt with a
digest is still produced from the result. -/
theorem swap_gate_not_rejected_counterexample :
    executeCircuit "qiskit_simulator" okBridgeEnv swapCircuit 100 1
      = .value [("provider", .jstr "qiskit_simulator"), ("success", .jbool true),
                ("counts", .jdict [("00", 100)]), ("shots", .jint 100),
                ("execution_time", .jint 0)]
    ∧ buildQiskitGates swapCircuit.gates = []
    ∧ dictGet (generateReceipt (fun _ => "deadbeef") 0
        [("provider", RVal.jstr "qiskit_simulator"), ("success", RVal.jbool true),
         ("counts", RVal.jdict [("00", 100)]), ("shots", RVal.jint 100),
         ("execution_time", RVal.jint 0)] "job-1") "digest"
      = some (.jstr "deadbeef") := by
  refine ⟨by decide, by decide, by decide⟩

/-- C3 as amended: a gate whose kind is none of `h`, `cx`, `rz`, `ry`
is silently ignored instead of rejected: the Qiskit and Google circuit
builders drop it (so the simulator adapter behaves exactly as if the
gate were absent), the IonQ builder appends an empty gate record for
it, execution proceeds and a receipt is produced. -/
theorem unknown_gate_silently_dropped (g : Gate) (gs : List Gate) (n : Nat)
    (h1 : g.gtype ≠ "h") (h2 : g.gtype ≠ "cx")
    (h3 : g.gtype ≠ "rz") (h4 : g.gtype ≠ "ry") :
    buildQiskitGates (g :: gs) = buildQiskitGates gs
    ∧ buildGoogleCircuit (g :: gs) = buildGoogleCircuit gs
    ∧ buildIonqCircuit (g :: gs) = [] :: buildIonqCircuit gs
    ∧ (∀ env shots fuel, executeCircuit "qiskit_simulator" env ⟨n, g :: gs⟩ shots fuel
        = .value (executeQiskitSimulator env.sim env.now ⟨n, gs⟩ shots)) := by
  have hb : buildQiskitGates (g :: gs) = buildQiskitGates gs := by
    simp [buildQiskitGates, h1, h2, h3, h4]
  have hgo : buildGoogleCircuit (g :: gs) = buildGoogleCircuit gs := by
    simp [buildGoogleCircuit, h1, h2]
  have hio : buildIonqCircuit (g :: gs) = [] :: buildIonqCircuit gs := by
    simp [buildIonqCircuit, h1, h2]
  refine ⟨hb, hgo, hio, ?_⟩
  intro env shots fuel
  simp [executeCircuit, bridgeConfig, qpuProviders, executeQiskitSimulator, hb]

/-- Instantiation of C3 (amended) at the `swap` gate. -/
theorem unknown_gate_silently_dropped_witness :
    buildQiskitGates ({ gtype := "swap", qubits := [0, 1], angle := none } :: [])
      = buildQiskitGates []
    ∧ buildGoogleCircuit ({ gtype := "swap", qubits := [0, 1], angle := none } :: [])
      = buildGoogleCircuit []
    ∧ buildIonqCircuit ({ gtype := "swap", qubits := [0, 1], angle := none } :: [])
      = [] :: buildIonqCircuit []
    ∧ (∀ env shots fuel, executeCircuit "qiskit_simulator" env
        ⟨2, { gtype := "swap", qubits := [0, 1], angle := none } :: []⟩ shots fuel
        = .value (executeQiskitSimulator env.sim env.now ⟨2, []⟩ shots)) :=
  unknown_gate_silently_dropped { gtype := "swap", qubits := [0, 1], angle := none } [] 2
    (by decide) (by decide) (by decide) (by decide)

/-! ## C6 — the IonQ translation swaps the roles of control and target -/

/-- C6: on the one-gate circuit `cx [0, 1]` the Qiskit and Cirq
translations read `qubits[0]` as the control and `qubits[1]` as the
target, but `_build_ionq_circuit` emits
`{gate: cnot, target: qubits[0], control: qubits[1]}` — the IonQ gate
is controlled on qubit 1 targeting qubit 0, the opposite roles of the
corresponding source gate. -/
theorem ionq_cx_control_target_swapped :
    buildQiskitGates cxCircuit.gates = [.cx 0 1]
    ∧ buildGoogleCircuit cxCircuit.gates = [.cnot 0 1]
    ∧ buildIonqCircuit cxCircuit.gates
        = [[("gate", .jstr "cnot"), ("target", .jint 0), ("control", .jint 1)]]
    ∧ dictGet ((buildIonqCircuit cxCircuit.gates).getD 0 []) "control" = some (.jint 1)
    ∧ dictGet ((buildIonqCircuit cxCircuit.gates).getD 0 []) "target" = some (.jint 0) := by
  decide

/-! ## C10 — rotation gates with a missing angle run with angle 0 -/

/-- C10: `gate.get("angle", 0)` makes the rotation builders default a
missing angle to 0: an `rz`/`ry` gate without an `angle` field is
translated as a rotation by 0 on its qubit (in the shared
simulator/IBM gate builder, the only translator of rotations), and the
simulator adapter behaves identically on the angle-less gate and on
the same gate with an explicit angle of 0. -/
theorem rotation_missing_angle_defaults_zero (q : Nat) (qs : List Nat)
    (gs : List Gate)
    (sim : Nat → List QiskitOp → Nat → Except String (List (String × Int)))
    (now : Int) (n shots : Nat) :
    buildQiskitGates ({ gtype := "rz", qubits := q :: qs, angle := none } :: gs)
      = .rz 0 q :: buildQiskitGates gs
    ∧ buildQiskitGates ({ gtype := "ry", qubits := q :: qs, angle := none } :: gs)
      = .ry 0 q :: buildQiskitGates gs
    ∧ executeQiskitSimulator sim now ⟨n, { gtype := "rz", qubits := q :: qs, angle := none } :: gs⟩ shots
      = executeQiskitSimulator sim now ⟨n, { gtype := "rz", qubits := q :: qs, angle := some 0 } :: gs⟩ shots :=
  ⟨rfl, rfl, rfl⟩
